import Mathlib

/-!
Shallow embedding of the voice-first to-do backend's specification execution
engine (`src/backend/app`): the query-spec data model, `FilterBuilder`,
`SafeQueryBuilder`, the `TaskRepository` over a pure in-memory store, the four
operation strategies, and `QueryExecutor`. Python machine-level details are
modelled as follows: dynamic values become the `Value` inductive, dicts become
association lists, UUIDs become naturals rendered as decimal strings,
timezone-aware datetimes become integer Unix seconds (microseconds dropped),
and raised exceptions become `Except PyErr`.
-/

namespace VTodo

/-- A Python value as it appears in `params` / `modifications` dictionaries. -/
inductive Value where
  | none
  | int (n : Int)
  | str (s : String)
deriving DecidableEq, Repr

/-- Python truthiness of a `Value` (`None`, `0` and `""` are falsy). -/
def Value.truthy : Value → Bool
  | .none => false
  | .int n => n != 0
  | .str s => s != ""

instance {ε α : Type} [DecidableEq ε] [DecidableEq α] : DecidableEq (Except ε α) := fun a b =>
  match a, b with
  | Except.ok x, Except.ok y =>
    if h : x = y then Decidable.isTrue (congrArg Except.ok h)
    else Decidable.isFalse (fun hh => h (Except.ok.inj hh))
  | Except.error x, Except.error y =>
    if h : x = y then Decidable.isTrue (congrArg Except.error h)
    else Decidable.isFalse (fun hh => h (Except.error.inj hh))
  | Except.ok _, Except.error _ => Decidable.isFalse (fun hh => Except.noConfusion hh)
  | Except.error _, Except.ok _ => Decidable.isFalse (fun hh => Except.noConfusion hh)

/-- A Python `dict` of keyword parameters, as an association list. -/
abbrev Params := List (String × Value)

/-- `d.get(k)`: first binding of `k`, if any. -/
def Params.get (p : Params) (k : String) : Option Value :=
  (List.find? (fun kv => kv.1 == k) p).map (·.2)

/-- `d.get(k, default)`. -/
def Params.getD (p : Params) (k : String) (d : Value) : Value :=
  (p.get k).getD d

/-- Truthiness of `d.get(k)` (missing key behaves like `None`). -/
def Params.truthyAt (p : Params) (k : String) : Bool :=
  (p.getD k Value.none).truthy

/-- `d[k] = v`: replace an existing binding or append a new one. -/
def Params.set (p : Params) (k : String) (v : Value) : Params :=
  if (List.find? (fun kv => kv.1 == k) p).isSome then
    List.map (fun kv => if kv.1 == k then (k, v) else kv) p
  else
    p ++ [(k, v)]

/-- `{**p, **q}`: dict-literal merge where later keys win. -/
def Params.update (p q : Params) : Params :=
  List.foldl (fun acc kv => Params.set acc kv.1 kv.2) p q

/-- Truthiness of an optional string field (Python `if step.field:`). -/
def osTruthy : Option String → Bool
  | Option.none => false
  | some s => s != ""

/-- A raised Python exception, by class (`app/utils/errors.py` plus builtins).
The carried string is `str(e)` (for `VoiceAppException` that is `.message`). -/
inductive PyErr where
  | queryValidation (msg : String)
  | taskNotFound (msg : String)
  | database (msg : String)
  | typeError (msg : String)
  | valueError (msg : String)
deriving DecidableEq, Repr

/-- `str(e)` of a raised exception. -/
def PyErr.str : PyErr → String
  | .queryValidation m => m
  | .taskNotFound m => m
  | .database m => m
  | .typeError m => m
  | .valueError m => m

/-- A row of the `toDoList` table (`app/models/task.py`). Ids and user ids are
naturals standing for UUIDs; datetimes are Unix seconds. The generated
`search_vector` column is not stored: keyword search recomputes it from
title/description/category, as the Postgres computed column does. -/
structure Task where
  id : Nat
  user_id : Nat
  title : String
  description : Option String
  category : Option String
  priority : Int
  status : String
  scheduled_time : Option Int
  created_at : Int
  updated_at : Int
  completed_at : Option Int
deriving DecidableEq, Repr

/-- The entity store: the task table plus a flag modelling the database
session raising on its next call (wrapped into `DatabaseException` by every
repository method). `next_id` models the server-generated primary key. -/
structure Store where
  tasks : List Task
  dbFails : Bool
  next_id : Nat
deriving DecidableEq, Repr

/-- `FilterSpec` (`app/models/query_spec.py`): a plain dataclass instance. -/
structure FilterSpec where
  type : String
  value : Value
deriving DecidableEq, Repr

/-- The closed filter-type whitelist shared by `FilterSpec.__post_init__`
and `FilterBuilder.ALLOWED_FILTERS`. -/
def allowedFilterTypes : List String :=
  ["is_overdue", "is_today", "is_completed",
   "priority_min", "priority_max", "priority_equals",
   "category", "status", "keyword",
   "scheduled_after", "scheduled_before",
   "created_after", "created_before"]

/-- `FilterSpec(...)` construction including `__post_init__` validation. -/
def FilterSpec.make (type : String) (value : Value) : Except PyErr FilterSpec :=
  if type ∈ allowedFilterTypes then
    Except.ok { type := type, value := value }
  else
    Except.error (PyErr.valueError ("Invalid filter type: " ++ type))

/-- `StepSpec` (`app/models/query_spec.py`): a dataclass with NO
`__post_init__`, so construction accepts every field combination. -/
structure StepSpec where
  order : Int
  operation : String
  params : Params
  filters : List FilterSpec
  limit : Option Int
  save_result_as : Option String
  use_result_from : Option String
  selector : Option String
  index : Option Int
  modifications : Option Params
deriving DecidableEq, Repr

/-- The spec's data-model invariant for `StepSpec` (§3): `update_batch`
requires `use_result_from`, and `index` is set iff `selector=by_index`. -/
def StepSpec.invariantHolds (s : StepSpec) : Prop :=
  (s.operation = "update_batch" → s.use_result_from.isSome) ∧
  (s.index.isSome ↔ s.selector = some "by_index")

instance (s : StepSpec) : Decidable s.invariantHolds := by
  unfold StepSpec.invariantHolds; infer_instance

/-- `QuerySpecification` (`app/models/query_spec.py`), fields only. -/
structure QuerySpecification where
  complexity : String
  strategy : String
  steps : List StepSpec
  natural_response : String
deriving DecidableEq, Repr

/-- `QuerySpecification(...)` construction including `__post_init__`:
rejects an empty steps list, and `complexity="simple"` with several steps. -/
def QuerySpecification.make (complexity strategy : String)
    (steps : List StepSpec) (natural_response : String) :
    Except PyErr QuerySpecification :=
  if steps.isEmpty then
    Except.error (PyErr.valueError "Query specification must have at least one step")
  else if complexity == "simple" && steps.length > 1 then
    Except.error (PyErr.valueError "Simple queries should have only one step")
  else
    Except.ok { complexity := complexity, strategy := strategy,
                steps := steps, natural_response := natural_response }

/-! ### Datetime model

Timezone-aware datetimes are Unix seconds (`Int`); `datetime.utcnow()` is a
`now : Int` parameter threaded through the engine. `datetime.fromisoformat`
is modelled for the `YYYY-MM-DD[{T,space}HH:MM[:SS]][±HH:MM]` subset
(fractional seconds are not modelled; no claim exercises them). -/

/-- Civil date to days since the Unix epoch (proleptic Gregorian). -/
def daysFromCivil (y m d : Int) : Int :=
  let y' := if m ≤ 2 then y - 1 else y
  let era : Int := (if 0 ≤ y' then y' else y' - 399) / 400
  let yoe := y' - era * 400
  let mp := if 2 < m then m - 3 else m + 9
  let doy := (153 * mp + 2) / 5 + d - 1
  let doe := yoe * 365 + yoe / 4 - yoe / 100 + doy
  era * 146097 + doe - 719468

/-- Length of a month in the Gregorian calendar. -/
def daysInMonth (y m : Int) : Int :=
  if m = 2 then
    if (y % 4 = 0 ∧ y % 100 ≠ 0) ∨ y % 400 = 0 then 29 else 28
  else if m ∈ ([4, 6, 9, 11] : List Int) then 30
  else 31

/-- Read a fixed-width run of decimal digits as a natural number. -/
def digitsToNat : List Char → Option Nat
  | [] => some 0
  | c :: cs =>
    if c.isDigit then
      (digitsToNat cs).map (fun rest => (c.toNat - 48) * 10 ^ cs.length + rest)
    else
      Option.none

/-- Parse `HH:MM[:SS]` into seconds plus the remaining characters. -/
def parseTimeOfDay : List Char → Option (Int × List Char)
  | h1 :: h2 :: ':' :: m1 :: m2 :: ':' :: s1 :: s2 :: rest => do
    let h ← digitsToNat [h1, h2]
    let mi ← digitsToNat [m1, m2]
    let s ← digitsToNat [s1, s2]
    if h ≤ 23 ∧ mi ≤ 59 ∧ s ≤ 59 then
      some (((h * 3600 + mi * 60 + s : Nat) : Int), rest)
    else Option.none
  | h1 :: h2 :: ':' :: m1 :: m2 :: rest => do
    let h ← digitsToNat [h1, h2]
    let mi ← digitsToNat [m1, m2]
    if h ≤ 23 ∧ mi ≤ 59 then
      some (((h * 3600 + mi * 60 : Nat) : Int), rest)
    else Option.none
  | _ => Option.none

/-- Parse an optional trailing UTC offset `±HH:MM` into offset seconds. -/
def parseOffset : List Char → Option Int
  | [] => some 0
  | sign :: h1 :: h2 :: ':' :: m1 :: m2 :: [] => do
    let h ← digitsToNat [h1, h2]
    let mi ← digitsToNat [m1, m2]
    let secs : Int := ((h * 3600 + mi * 60 : Nat) : Int)
    if sign = '+' then some secs
    else if sign = '-' then some (-secs)
    else Option.none
  | _ => Option.none

/-- `datetime.fromisoformat` on the modelled subset, as absolute Unix
seconds (aware offsets are folded in; a naive datetime is taken as UTC). -/
def fromIsoformat (s : String) : Option Int :=
  match s.toList with
  | y1 :: y2 :: y3 :: y4 :: '-' :: m1 :: m2 :: '-' :: d1 :: d2 :: rest => do
    let y ← digitsToNat [y1, y2, y3, y4]
    let mo ← digitsToNat [m1, m2]
    let d ← digitsToNat [d1, d2]
    if 1 ≤ mo ∧ mo ≤ 12 ∧ 1 ≤ (d : Int) ∧ (d : Int) ≤ daysInMonth y mo then
      match rest with
      | [] => some (daysFromCivil y mo d * 86400)
      | sep :: rest' =>
        if sep = 'T' ∨ sep = ' ' then do
          let (tod, rest'') ← parseTimeOfDay rest'
          let off ← parseOffset rest''
          some (daysFromCivil y mo d * 86400 + tod - off)
        else Option.none
    else Option.none
  | _ => Option.none

/-- `value.replace('Z', '+00:00')` then `datetime.fromisoformat`. -/
def fromIsoformatZ (s : String) : Option Int :=
  fromIsoformat (s.replace "Z" "+00:00")

/-- Start of the UTC day containing `now` (`now.replace(hour=0, ...)`). -/
def startOfDay (now : Int) : Int := now - now % 86400

/-- End of the UTC day containing `now`, at second granularity
(`now.replace(hour=23, minute=59, second=59, ...)`). -/
def endOfDay (now : Int) : Int := startOfDay now + 86399

/-! ### Query model

A built SQLAlchemy `select` is a conjunction of predicates over `Task`, an
ordering flag and an optional limit. `select(Task).where(...)` appends to the
predicate list, so the embedding keeps predicates in application order. -/

/-- One WHERE predicate, mirroring the expressions built in
`query_builder.py` / `filter_builder.py`. `overdue` and `today` capture the
wall-clock values baked in at filter-construction time. -/
inductive Pred where
  | userEq (uid : Nat)
  | overdue (now : Int)
  | today (dayStart dayEnd : Int)
  | completed
  | priorityGe (n : Int)
  | priorityLe (n : Int)
  | priorityEq (n : Int)
  | categoryILike (s : String)
  | statusEq (s : String)
  | keyword (s : String)
  | scheduledGe (t : Int)
  | scheduledLe (t : Int)
  | createdGe (t : Int)
  | createdLe (t : Int)
deriving DecidableEq, Repr

/-- A built query: user-scoped predicates, ordering, limit. -/
structure Query where
  preds : List Pred
  orderedByCreatedDesc : Bool
  limit : Option Int
deriving DecidableEq, Repr

/-- `query.where(p)`: conjoin one more predicate. -/
def Query.wherePred (q : Query) (p : Pred) : Query :=
  { q with preds := q.preds ++ [p] }

/-- `a == b` case-insensitive substring test over char lists. -/
def isPrefixL : List Char → List Char → Bool
  | [], _ => true
  | _ :: _, [] => false
  | a :: as, b :: bs => a == b && isPrefixL as bs

/-- Whether `needle` occurs as a contiguous substring of the haystack. -/
def containsL (needle : List Char) : List Char → Bool
  | [] => needle.isEmpty
  | c :: cs => isPrefixL needle (c :: cs) || containsL needle cs

/-- `ILIKE '%v%'`: case-insensitive substring match. -/
def ilikeContains (hay needle : String) : Bool :=
  containsL needle.toLower.toList hay.toLower.toList

/-- Lower-cased alphanumeric words of a string (the lexemes of the modelled
full-text search; stemming is not modelled). -/
def ftsWords (s : String) : List String :=
  (s.toLower.split (fun c => !c.isAlphanum)).filter (fun w => w != "")

/-- `search_vector @@ plainto_tsquery('english', kw)`: every lexeme of `kw`
occurs among the lexemes of title/description/category; the empty query
matches nothing. -/
def keywordMatch (kw : String) (t : Task) : Bool :=
  let doc := ftsWords (t.title ++ " " ++ t.description.getD "" ++ " " ++ t.category.getD "")
  let qws := ftsWords kw
  !qws.isEmpty && qws.all (fun w => doc.contains w)

/-- Truth of one predicate at one row (SQL three-valued logic on NULL
columns collapses to `false` for the comparisons used here). -/
def Pred.eval (t : Task) : Pred → Bool
  | .userEq uid => t.user_id == uid
  | .overdue now =>
    (match t.scheduled_time with
     | some st => st < now
     | Option.none => false) && t.status != "completed"
  | .today dayStart dayEnd =>
    match t.scheduled_time with
    | some st => dayStart ≤ st && st ≤ dayEnd
    | Option.none => false
  | .completed => t.status == "completed"
  | .priorityGe n => n ≤ t.priority
  | .priorityLe n => t.priority ≤ n
  | .priorityEq n => t.priority == n
  | .categoryILike s =>
    match t.category with
    | some c => ilikeContains c s
    | Option.none => false
  | .statusEq s => t.status == s
  | .keyword s => keywordMatch s t
  | .scheduledGe v =>
    match t.scheduled_time with
    | some st => v ≤ st
    | Option.none => false
  | .scheduledLe v =>
    match t.scheduled_time with
    | some st => st ≤ v
    | Option.none => false
  | .createdGe v => v ≤ t.created_at
  | .createdLe v => t.created_at ≤ v

/-- Stable insertion for descending `created_at` order. -/
def insertByCreatedDesc (t : Task) : List Task → List Task
  | [] => [t]
  | u :: us =>
    if t.created_at ≤ u.created_at then u :: insertByCreatedDesc t us
    else t :: u :: us

/-- Stable sort by `created_at` descending (`ORDER BY created_at DESC`). -/
def sortByCreatedDesc : List Task → List Task
  | [] => []
  | t :: ts => insertByCreatedDesc t (sortByCreatedDesc ts)

/-- Run a built query over the table rows: filter by the conjunction of
predicates, apply ordering, apply the limit. -/
def Query.run (q : Query) (rows : List Task) : List Task :=
  let filtered := rows.filter (fun t => q.preds.all (fun p => p.eval t))
  let ordered := if q.orderedByCreatedDesc then sortByCreatedDesc filtered else filtered
  match q.limit with
  | some n => ordered.take n.toNat
  | Option.none => ordered

/-! ### FilterBuilder (`app/builders/filter_builder.py`) -/

/-- The predicate contributed by one `_filter_*` implementation, or the
exception it raises. Factoring each `return query.where(expr)` into the
`expr` it builds. -/
def filterPred (type : String) (value : Value) (now : Int) : Except PyErr Pred :=
  if type == "is_overdue" then Except.ok (Pred.overdue now)
  else if type == "is_today" then Except.ok (Pred.today (startOfDay now) (endOfDay now))
  else if type == "is_completed" then Except.ok Pred.completed
  else if type == "priority_min" then
    match value with
    | Value.int n =>
      if n < 0 ∨ 3 < n then Except.error (PyErr.queryValidation "priority_min value must be 0-3")
      else Except.ok (Pred.priorityGe n)
    | _ => Except.error (PyErr.queryValidation "priority_min value must be 0-3")
  else if type == "priority_max" then
    match value with
    | Value.int n =>
      if n < 0 ∨ 3 < n then Except.error (PyErr.queryValidation "priority_max value must be 0-3")
      else Except.ok (Pred.priorityLe n)
    | _ => Except.error (PyErr.queryValidation "priority_max value must be 0-3")
  else if type == "priority_equals" then
    match value with
    | Value.int n =>
      if n < 0 ∨ 3 < n then Except.error (PyErr.queryValidation "priority_equals value must be 0-3")
      else Except.ok (Pred.priorityEq n)
    | _ => Except.error (PyErr.queryValidation "priority_equals value must be 0-3")
  else if type == "category" then
    match value with
    | Value.str s => Except.ok (Pred.categoryILike s)
    | _ => Except.error (PyErr.queryValidation "category value must be a string")
  else if type == "status" then
    match value with
    | Value.str s =>
      if s ∈ ["pending", "in_progress", "completed"] then Except.ok (Pred.statusEq s)
      else Except.error (PyErr.queryValidation "status value must be one of the allowed statuses")
    | _ => Except.error (PyErr.queryValidation "status value must be one of the allowed statuses")
  else if type == "keyword" then
    match value with
    | Value.str s => Except.ok (Pred.keyword s)
    | _ => Except.error (PyErr.queryValidation "keyword value must be a string")
  else if type == "scheduled_after" then
    match value with
    | Value.str s =>
      match fromIsoformatZ s with
      | some dt => Except.ok (Pred.scheduledGe dt)
      | Option.none => Except.error (PyErr.queryValidation "scheduled_after value must be ISO 8601 datetime")
    | _ => Except.error (PyErr.queryValidation "scheduled_after value must be ISO 8601 datetime")
  else if type == "scheduled_before" then
    match value with
    | Value.str s =>
      match fromIsoformatZ s with
      | some dt => Except.ok (Pred.scheduledLe dt)
      | Option.none => Except.error (PyErr.queryValidation "scheduled_before value must be ISO 8601 datetime")
    | _ => Except.error (PyErr.queryValidation "scheduled_before value must be ISO 8601 datetime")
  else if type == "created_after" then
    match value with
    | Value.str s =>
      match fromIsoformatZ s with
      | some dt => Except.ok (Pred.createdGe dt)
      | Option.none => Except.error (PyErr.queryValidation "created_after value must be ISO 8601 datetime")
    | _ => Except.error (PyErr.queryValidation "created_after value must be ISO 8601 datetime")
  else if type == "created_before" then
    match value with
    | Value.str s =>
      match fromIsoformatZ s with
      | some dt => Except.ok (Pred.createdLe dt)
      | Option.none => Except.error (PyErr.queryValidation "created_before value must be ISO 8601 datetime")
    | _ => Except.error (PyErr.queryValidation "created_before value must be ISO 8601 datetime")
  else Except.error (PyErr.queryValidation ("unknown filter: " ++ type))

/-- `FilterBuilder.apply_filter`: whitelist check, then run the filter
implementation; any exception from it is re-raised as
`QueryValidationException("Failed to apply filter '<type>'")`. -/
def apply_filter (q : Query) (f : FilterSpec) (now : Int) : Except PyErr Query :=
  if f.type ∉ allowedFilterTypes then
    Except.error (PyErr.queryValidation
      ("Filter type \x27" ++ f.type ++ "\x27 is not allowed"))
  else
    match filterPred f.type f.value now with
    | Except.ok p => Except.ok (q.wherePred p)
    | Except.error _ => Except.error (PyErr.queryValidation
        ("Failed to apply filter \x27" ++ f.type ++ "\x27"))

/-! ### SafeQueryBuilder (`app/builders/query_builder.py`) -/

/-- The `for filter_spec in step.filters` loop applying each filter. -/
def applyFilters (q : Query) (now : Int) : List FilterSpec → Except PyErr Query
  | [] => Except.ok q
  | f :: fs =>
    match apply_filter q f now with
    | Except.ok q' => applyFilters q' now fs
    | Except.error e => Except.error e

/-- `SafeQueryBuilder.build_query`: user-scoped base query, all filters,
default ordering `created_at DESC`, then the limit — applied only when
`step.limit` is truthy (Python `if step.limit:` skips both `None` and `0`). -/
def build_query (step : StepSpec) (user_id : Nat) (now : Int) : Except PyErr Query :=
  match applyFilters
      { preds := [Pred.userEq user_id], orderedByCreatedDesc := false, limit := Option.none }
      now step.filters with
  | Except.error e => Except.error e
  | Except.ok q =>
    Except.ok
      (match step.limit with
       | some n =>
         if n != 0 then { q with orderedByCreatedDesc := true, limit := some n }
         else { q with orderedByCreatedDesc := true }
       | Option.none => { q with orderedByCreatedDesc := true })

/-! ### TaskRepository (`app/repositories/task_repository.py`)

Every method wraps session failures into `DatabaseException`; `st.dbFails`
models the session raising. Primary keys are unique, so row deletion and
replacement key on `id`. -/

/-- `TaskRepository.get_by_id`: user-scoped point lookup. -/
def repo_get_by_id (st : Store) (task_id user_id : Nat) : Except PyErr (Option Task) :=
  if st.dbFails then Except.error (PyErr.database "Failed to retrieve task")
  else Except.ok (st.tasks.find? (fun t => t.id == task_id && t.user_id == user_id))

/-- `TaskRepository.get_all`: the user's rows, `created_at DESC`, capped at
`limit` (default 100 at every call site in this codebase). -/
def repo_get_all (st : Store) (user_id : Nat) (limit : Nat) : Except PyErr (List Task) :=
  if st.dbFails then Except.error (PyErr.database "Failed to retrieve tasks")
  else Except.ok ((sortByCreatedDesc (st.tasks.filter (fun t => t.user_id == user_id))).take limit)

/-- `TaskRepository.execute_query`: run a built query. A negative limit is
rejected by the database, surfacing as `DatabaseException`. -/
def repo_execute_query (st : Store) (q : Query) : Except PyErr (List Task) :=
  if st.dbFails then Except.error (PyErr.database "Failed to execute query")
  else
    match q.limit with
    | some n =>
      if n < 0 then Except.error (PyErr.database "Failed to execute query")
      else Except.ok (q.run st.tasks)
    | Option.none => Except.ok (q.run st.tasks)

/-- `TaskCreate` (`app/schemas/task_schema.py`): the validated creation
payload with its defaults. -/
structure TaskCreate where
  title : String
  description : Option String
  category : Option String
  priority : Int
  status : String
  scheduled_time : Option Int
deriving DecidableEq, Repr

/-- `TaskUpdate`: the validated partial-update payload; a field is `some`
exactly when the caller supplied it (explicit nulls are not modelled — the
engine never sends them). -/
structure TaskUpdate where
  title : Option String
  description : Option String
  category : Option String
  priority : Option Int
  status : Option String
  scheduled_time : Option Int
deriving DecidableEq, Repr

/-- Pydantic coercion of a params value into an optional string field. -/
def valAsOptStr : Value → Except PyErr (Option String)
  | Value.none => Except.ok Option.none
  | Value.str s => Except.ok (some s)
  | Value.int _ => Except.error (PyErr.valueError "validation error: str expected")

/-- Pydantic coercion into an optional datetime field (ISO strings and
integer timestamps are accepted). -/
def valAsOptDatetime : Value → Except PyErr (Option Int)
  | Value.none => Except.ok Option.none
  | Value.int n => Except.ok (some n)
  | Value.str s =>
    match fromIsoformat s with
    | some dt => Except.ok (some dt)
    | Option.none => Except.error (PyErr.valueError "validation error: datetime expected")

/-- `TaskCreate(**params)`: pydantic validation with the schema's field
constraints and defaults; unknown keys are ignored. -/
def TaskCreate.fromParams (p : Params) : Except PyErr TaskCreate := do
  let title ←
    match p.get "title" with
    | some (Value.str s) =>
      if 1 ≤ s.length ∧ s.length ≤ 500 then Except.ok s
      else Except.error (PyErr.valueError "validation error: title length")
    | some _ => Except.error (PyErr.valueError "validation error: title must be a string")
    | Option.none => Except.error (PyErr.valueError "validation error: title is required")
  let description ← valAsOptStr (p.getD "description" Value.none)
  let category ←
    match ← valAsOptStr (p.getD "category" Value.none) with
    | some c =>
      if c.length ≤ 100 then Except.ok (some c)
      else Except.error (PyErr.valueError "validation error: category length")
    | Option.none => Except.ok Option.none
  let priority ←
    match p.getD "priority" (Value.int 0) with
    | Value.int n =>
      if 0 ≤ n ∧ n ≤ 3 then Except.ok n
      else Except.error (PyErr.valueError "validation error: priority range")
    | _ => Except.error (PyErr.valueError "validation error: priority must be an int")
  let status ←
    match p.getD "status" (Value.str "pending") with
    | Value.str s =>
      if s ∈ ["pending", "in_progress", "completed"] then Except.ok s
      else Except.error (PyErr.valueError "Status must be one of the allowed values")
    | _ => Except.error (PyErr.valueError "Status must be one of the allowed values")
  let scheduled_time ← valAsOptDatetime (p.getD "scheduled_time" Value.none)
  Except.ok { title := title, description := description, category := category,
              priority := priority, status := status, scheduled_time := scheduled_time }

/-- `TaskUpdate(**update_fields)`: all fields optional, same constraints. -/
def TaskUpdate.fromParams (p : Params) : Except PyErr TaskUpdate := do
  let title ←
    match ← valAsOptStr (p.getD "title" Value.none) with
    | some s =>
      if 1 ≤ s.length ∧ s.length ≤ 500 then Except.ok (some s)
      else Except.error (PyErr.valueError "validation error: title length")
    | Option.none => Except.ok Option.none
  let description ← valAsOptStr (p.getD "description" Value.none)
  let category ←
    match ← valAsOptStr (p.getD "category" Value.none) with
    | some c =>
      if c.length ≤ 100 then Except.ok (some c)
      else Except.error (PyErr.valueError "validation error: category length")
    | Option.none => Except.ok Option.none
  let priority ←
    match p.getD "priority" Value.none with
    | Value.none => Except.ok Option.none
    | Value.int n =>
      if 0 ≤ n ∧ n ≤ 3 then Except.ok (some n)
      else Except.error (PyErr.valueError "validation error: priority range")
    | _ => Except.error (PyErr.valueError "validation error: priority must be an int")
  let status ←
    match p.getD "status" Value.none with
    | Value.none => Except.ok Option.none
    | Value.str s =>
      if s ∈ ["pending", "in_progress", "completed"] then Except.ok (some s)
      else Except.error (PyErr.valueError "Status must be one of the allowed values")
    | _ => Except.error (PyErr.valueError "Status must be one of the allowed values")
  let scheduled_time ← valAsOptDatetime (p.getD "scheduled_time" Value.none)
  Except.ok { title := title, description := description, category := category,
              priority := priority, status := status, scheduled_time := scheduled_time }

/-- `TaskRepository.create`: new row with server-generated id, timestamps
set to the commit time, defaults for the remaining columns. -/
def repo_create (st : Store) (d : TaskCreate) (user_id : Nat) (now : Int) :
    Except PyErr (Task × Store) :=
  if st.dbFails then Except.error (PyErr.database "Failed to create task")
  else
    let t : Task :=
      { id := st.next_id, user_id := user_id, title := d.title,
        description := d.description, category := d.category,
        priority := d.priority, status := d.status,
        scheduled_time := d.scheduled_time, created_at := now,
        updated_at := now, completed_at := Option.none }
    Except.ok (t, { st with tasks := st.tasks ++ [t], next_id := st.next_id + 1 })

/-- `setattr` loop of `TaskRepository.update` plus the `updated_at`
`onupdate` hook firing at commit. -/
def applyTaskUpdate (t : Task) (u : TaskUpdate) (now : Int) : Task :=
  { t with
    title := u.title.getD t.title,
    description := match u.description with
      | some d => some d
      | Option.none => t.description,
    category := match u.category with
      | some c => some c
      | Option.none => t.category,
    priority := u.priority.getD t.priority,
    status := u.status.getD t.status,
    scheduled_time := match u.scheduled_time with
      | some s => some s
      | Option.none => t.scheduled_time,
    updated_at := now }

/-- `TaskRepository.update`: ownership-scoped lookup, `TaskNotFoundException`
when absent, field-wise mutation otherwise. -/
def repo_update (st : Store) (task_id : Nat) (u : TaskUpdate) (user_id : Nat) (now : Int) :
    Except PyErr (Task × Store) :=
  if st.dbFails then Except.error (PyErr.database "Failed to update task")
  else
    match st.tasks.find? (fun t => t.id == task_id && t.user_id == user_id) with
    | Option.none =>
      Except.error (PyErr.taskNotFound ("Task " ++ toString task_id ++ " not found"))
    | some t =>
      let t' := applyTaskUpdate t u now
      Except.ok (t', { st with
        tasks := st.tasks.map (fun r => if r.id == task_id && r.user_id == user_id then t' else r) })

/-- `TaskRepository.delete`: ownership-scoped lookup, `TaskNotFoundException`
when absent, row removal otherwise. -/
def repo_delete (st : Store) (task_id user_id : Nat) : Except PyErr (Store) :=
  if st.dbFails then Except.error (PyErr.database "Failed to delete task")
  else
    match st.tasks.find? (fun t => t.id == task_id && t.user_id == user_id) with
    | Option.none =>
      Except.error (PyErr.taskNotFound ("Task " ++ toString task_id ++ " not found"))
    | some _ =>
      Except.ok { st with tasks := st.tasks.filter (fun t => t.id != task_id) }

/-- Columns a bulk `.values(**modifications)` may set, with the value type
the database accepts for each. -/
def validModKV : String × Value → Bool
  | ("title", Value.str _) => true
  | ("description", Value.str _) => true
  | ("description", Value.none) => true
  | ("category", Value.str _) => true
  | ("category", Value.none) => true
  | ("priority", Value.int _) => true
  | ("status", Value.str s) => s ∈ ["pending", "in_progress", "completed"]
  | ("scheduled_time", Value.str s) => (fromIsoformat s).isSome
  | ("scheduled_time", Value.none) => true
  | ("completed_at", Value.str s) => (fromIsoformat s).isSome
  | ("completed_at", Value.none) => true
  | _ => false

/-- A modifications dict the bulk UPDATE statement accepts: at least one
column (SQLAlchemy rejects an empty `values()`), all of them valid. -/
def modsOk (m : Params) : Bool :=
  !m.isEmpty && m.all validModKV

/-- Apply a valid modifications dict to one row, plus the `updated_at`
`onupdate` hook. -/
def applyMods (m : Params) (t : Task) (now : Int) : Task :=
  let t' := m.foldl (fun acc kv =>
    match kv with
    | ("title", Value.str s) => { acc with title := s }
    | ("description", v) => { acc with description := match v with
        | Value.str s => some s
        | _ => Option.none }
    | ("category", v) => { acc with category := match v with
        | Value.str s => some s
        | _ => Option.none }
    | ("priority", Value.int n) => { acc with priority := n }
    | ("status", Value.str s) => { acc with status := s }
    | ("scheduled_time", v) => { acc with scheduled_time := match v with
        | Value.str s => fromIsoformat s
        | _ => Option.none }
    | ("completed_at", v) => { acc with completed_at := match v with
        | Value.str s => fromIsoformat s
        | _ => Option.none }
    | _ => acc) t
  { t' with updated_at := now }

/-- `TaskRepository.update_batch`: one bulk
`UPDATE ... WHERE id IN ids AND user_id = user`; `modifications=None`
raises `TypeError` at `values(**None)` and an invalid/empty dict is rejected
by the statement layer — both wrapped into `DatabaseException` by the
method's `except` clause. Returns the rowcount. -/
def repo_update_batch (st : Store) (task_ids : List Nat) (mods : Option Params)
    (user_id : Nat) (now : Int) : Except PyErr (Int × Store) :=
  if st.dbFails then Except.error (PyErr.database "Failed to batch update tasks")
  else
    match mods with
    | Option.none => Except.error (PyErr.database "Failed to batch update tasks")
    | some m =>
      if !modsOk m then Except.error (PyErr.database "Failed to batch update tasks")
      else
        let hit := fun (t : Task) => decide (t.id ∈ task_ids) && t.user_id == user_id
        let count : Int := (st.tasks.filter hit).length
        Except.ok (count, { st with
          tasks := st.tasks.map (fun t => if hit t then applyMods m t now else t) })

/-- The zero `Task`, used only as the (unreachable) default of a
bounds-checked list access. -/
def defaultTask : Task :=
  { id := 0, user_id := 0, title := "", description := Option.none,
    category := Option.none, priority := 0, status := "pending",
    scheduled_time := Option.none, created_at := 0, updated_at := 0,
    completed_at := Option.none }

/-! ### Operation strategies (`app/operations/*.py`) -/

/-- The `data` payload of an `OperationResult`: absent, one entity, an
entity list, or one of the small result dicts the engine builds. -/
inductive ResultData where
  | none
  | task (t : Task)
  | tasks (ts : List Task)
  | deleted (task_id : String)
  | updatedCount (n : Int)
deriving DecidableEq, Repr

/-- Python truthiness of a `data` payload (`None` and `[]` are falsy;
objects and the non-empty dicts are truthy). -/
def ResultData.truthy : ResultData → Bool
  | .none => false
  | .task _ => true
  | .tasks ts => !ts.isEmpty
  | .deleted _ => true
  | .updatedCount _ => true

/-- `OperationResult` (`app/operations/base_operation.py`). -/
structure OperationResult where
  success : Bool
  data : ResultData
  message : String
deriving DecidableEq, Repr

/-- A failed result with no data. -/
def failResult (msg : String) : OperationResult :=
  { success := false, data := ResultData.none, message := msg }

/-- `CreateOperation.validate`: truthy title required; `priority`
(default 0) must be an int in 0..3. -/
def create_validate (params : Params) : Except PyErr Unit :=
  if !params.truthyAt "title" then
    Except.error (PyErr.queryValidation "Task title is required")
  else
    match params.getD "priority" (Value.int 0) with
    | Value.int n =>
      if n < 0 ∨ 3 < n then Except.error (PyErr.queryValidation "Priority must be 0-3")
      else Except.ok ()
    | _ => Except.error (PyErr.queryValidation "Priority must be 0-3")

/-- The body of `CreateOperation.execute` before its `except` clause. -/
def create_inner (params : Params) (user_id : Nat) (st : Store) (now : Int) :
    Except PyErr (Task × Store) := do
  let _ ← create_validate params
  let d ← TaskCreate.fromParams params
  repo_create st d user_id now

/-- `CreateOperation.execute`: any raised exception is caught and reported
as a failed `OperationResult` carrying `str(e)`. -/
def create_execute (params : Params) (user_id : Nat) (st : Store) (now : Int) :
    Except PyErr (OperationResult × Store) :=
  match create_inner params user_id st now with
  | Except.ok (t, st') =>
    Except.ok ({ success := true, data := ResultData.task t,
                 message := "Created task \x27" ++ t.title ++ "\x27" }, st')
  | Except.error e => Except.ok (failResult e.str, st)

/-- `UUID(params["task_id"])`: a decimal string stands for a UUID literal. -/
def parseTaskId : Option Value → Except PyErr Nat
  | some (Value.str s) =>
    match s.toNat? with
    | some n => Except.ok n
    | Option.none => Except.error (PyErr.valueError "badly formed task id")
  | some _ => Except.error (PyErr.typeError "task id must be a string")
  | Option.none => Except.error (PyErr.typeError "task id missing")

/-- The body of `UpdateOperation.execute` before its `except` clauses:
validate, parse the id, build `TaskUpdate` from the non-id fields, update. -/
def update_inner (params : Params) (user_id : Nat) (st : Store) (now : Int) :
    Except PyErr (Task × Store) :=
  if !params.truthyAt "task_id" then
    Except.error (PyErr.queryValidation "Task ID is required for update")
  else do
    let task_id ← parseTaskId (params.get "task_id")
    let u ← TaskUpdate.fromParams (params.filter (fun kv => kv.1 != "task_id"))
    repo_update st task_id u user_id now

/-- `UpdateOperation.execute`: not-found and every other exception are both
reported as failed results (the two `except` clauses differ only in logging). -/
def update_execute (params : Params) (user_id : Nat) (st : Store) (now : Int) :
    Except PyErr (OperationResult × Store) :=
  match update_inner params user_id st now with
  | Except.ok (t, st') =>
    Except.ok ({ success := true, data := ResultData.task t,
                 message := "Updated task \x27" ++ t.title ++ "\x27" }, st')
  | Except.error e => Except.ok (failResult e.str, st)

/-- The body of `DeleteOperation.execute` before its `except` clauses. -/
def delete_inner (params : Params) (user_id : Nat) (st : Store) :
    Except PyErr (Nat × Store) :=
  if !params.truthyAt "task_id" then
    Except.error (PyErr.queryValidation "Task ID is required for delete")
  else do
    let task_id ← parseTaskId (params.get "task_id")
    let st' ← repo_delete st task_id user_id
    Except.ok (task_id, st')

/-- `DeleteOperation.execute`. -/
def delete_execute (params : Params) (user_id : Nat) (st : Store) :
    Except PyErr (OperationResult × Store) :=
  match delete_inner params user_id st with
  | Except.ok (task_id, st') =>
    Except.ok ({ success := true, data := ResultData.deleted (toString task_id),
                 message := "Deleted task" }, st')
  | Except.error e => Except.ok (failResult e.str, st)

/-- The body of `ReadOperation.execute` before its `except` clause: with a
step spec, route through `SafeQueryBuilder`; without, `get_all` (default
limit 100). -/
def read_inner (step_spec : Option StepSpec) (user_id : Nat) (st : Store) (now : Int) :
    Except PyErr (List Task) := do
  match step_spec with
  | some sp => do
    let q ← build_query sp user_id now
    repo_execute_query st q
  | Option.none => repo_get_all st user_id 100

/-- `ReadOperation.execute`. -/
def read_execute (step_spec : Option StepSpec) (user_id : Nat) (st : Store) (now : Int) :
    Except PyErr (OperationResult × Store) :=
  match read_inner step_spec user_id st now with
  | Except.ok ts =>
    Except.ok ({ success := true, data := ResultData.tasks ts,
                 message := "Found " ++ toString ts.length ++ " tasks" }, st)
  | Except.error e => Except.ok (failResult e.str, st)

/-! ### QueryExecutor (`app/services/query_executor.py`) -/

/-- The transient execution context: name → stored `OperationResult.data`. -/
abbrev Ctx := List (String × ResultData)

/-- `context.get(name)`. -/
def Ctx.get (ctx : Ctx) (k : String) : Option ResultData :=
  (List.find? (fun kv => kv.1 == k) ctx).map (·.2)

/-- `name in context`. -/
def Ctx.has (ctx : Ctx) (k : String) : Bool :=
  (List.find? (fun kv => kv.1 == k) ctx).isSome

/-- `context[name] = data`. -/
def Ctx.set (ctx : Ctx) (k : String) (v : ResultData) : Ctx :=
  if Ctx.has ctx k then
    List.map (fun kv => if kv.1 == k then (k, v) else kv) ctx
  else
    ctx ++ [(k, v)]

/-- `ExecutionResult` (`app/services/query_executor.py`). -/
structure ExecutionResult where
  success : Bool
  results : List OperationResult
  message : String
  data : ResultData
deriving DecidableEq, Repr

/-- `QueryExecutor._format_result_data`: `None`/falsy data formats to
`None`; entities pass through as their response shape (field-identical in
this embedding), other payloads are returned as-is. -/
def format_result_data (result : Option OperationResult) : ResultData :=
  match result with
  | Option.none => ResultData.none
  | some r => if !r.data.truthy then ResultData.none else r.data

/-- The `operation.execute(params, user_id)` dispatch on the operations
table, for the paths that reach it (read is routed earlier with a step
spec and never through this call with plain params). -/
def op_dispatch (op : String) (params : Params) (user_id : Nat) (st : Store) (now : Int) :
    Except PyErr (OperationResult × Store) :=
  if op == "create" then create_execute params user_id st now
  else if op == "update" then update_execute params user_id st now
  else if op == "delete" then delete_execute params user_id st
  else read_execute Option.none user_id st now

/-- `QueryExecutor._execute_update_batch`: context lookup, list check, id
extraction, one bulk repository call (whose exceptions propagate — there is
no `try` here). -/
def execute_update_batch (step : StepSpec) (user_id : Nat) (ctx : Ctx) (st : Store)
    (now : Int) : Except PyErr (OperationResult × Store) :=
  if !osTruthy step.use_result_from ∨ !Ctx.has ctx (step.use_result_from.getD "") then
    Except.ok (failResult "No tasks found in context for batch update", st)
  else
    match Ctx.get ctx (step.use_result_from.getD "") with
    | some (ResultData.tasks ts) => do
      let task_ids := ts.map (fun t => t.id)
      let (count, st') ← repo_update_batch st task_ids step.modifications user_id now
      Except.ok ({ success := true, data := ResultData.updatedCount count,
                   message := "Updated " ++ toString count ++ " tasks" }, st')
    | _ => Except.ok (failResult "Invalid task list for batch update", st)

/-- `QueryExecutor._execute_delete_by_index`: full user list (`get_all`,
default limit 100), 1-based → 0-based conversion, bounds check, delete. A
missing `index` raises `TypeError` at `step.index - 1`. -/
def execute_delete_by_index (step : StepSpec) (user_id : Nat) (st : Store) :
    Except PyErr (OperationResult × Store) := do
  let tasks ← repo_get_all st user_id 100
  match step.index with
  | Option.none => Except.error (PyErr.typeError "unsupported operand type for -")
  | some i =>
    let index := i - 1
    if index < 0 ∨ (tasks.length : Int) ≤ index then
      Except.ok (failResult ("Task index " ++ toString i ++ " out of range"), st)
    else do
      let task := tasks.getD index.toNat defaultTask
      let st' ← repo_delete st task.id user_id
      Except.ok ({ success := true, data := ResultData.deleted (toString task.id),
                   message := "Deleted task \x27" ++ task.title ++ "\x27" }, st')

/-- The throwaway single-result read step built by the search-then-act
paths, reusing the acting step's own filters with limit 1. -/
def searchStepFor (step : StepSpec) : StepSpec :=
  { order := 1, operation := "read", params := [], filters := step.filters,
    limit := some 1, save_result_as := Option.none, use_result_from := Option.none,
    selector := Option.none, index := Option.none, modifications := Option.none }

/-- `QueryExecutor._execute_update_with_search`: search with the step's
filters (limit 1), then update the first hit with the merged params
(`{"task_id": ..., **step.modifications}`; a missing modifications dict
raises `TypeError` at the `**` expansion). -/
def execute_update_with_search (step : StepSpec) (user_id : Nat) (st : Store) (now : Int) :
    Except PyErr (OperationResult × Store) := do
  let (search_result, _) ← read_execute (some (searchStepFor step)) user_id st now
  if !search_result.success ∨ !search_result.data.truthy then
    Except.ok (failResult "No tasks found matching your criteria. Please try a different search.", st)
  else do
    let task_to_update ←
      match search_result.data with
      | ResultData.tasks [] =>
        Except.error (PyErr.typeError "unreachable: empty list is falsy")
      | ResultData.tasks (t :: _) => Except.ok t
      | ResultData.task t => Except.ok t
      | _ => Except.error (PyErr.typeError "object has no attribute id")
    match step.modifications with
    | Option.none => Except.error (PyErr.typeError "argument after ** must be a mapping")
    | some mods =>
      let update_params := Params.update [("task_id", Value.str (toString task_to_update.id))] mods
      update_execute update_params user_id st now

/-- `QueryExecutor._execute_delete_with_search`: search with the step's
filters (limit 1), then delete the first hit. -/
def execute_delete_with_search (step : StepSpec) (user_id : Nat) (st : Store) (now : Int) :
    Except PyErr (OperationResult × Store) := do
  let (search_result, _) ← read_execute (some (searchStepFor step)) user_id st now
  if !search_result.success ∨ !search_result.data.truthy then
    Except.ok (failResult "No tasks found matching your criteria. Please try a different search.", st)
  else do
    let task_to_delete ←
      match search_result.data with
      | ResultData.tasks [] =>
        Except.error (PyErr.typeError "unreachable: empty list is falsy")
      | ResultData.tasks (t :: _) => Except.ok t
      | ResultData.task t => Except.ok t
      | _ => Except.error (PyErr.typeError "object has no attribute id")
    delete_execute [("task_id", Value.str (toString task_to_delete.id))] user_id st

/-- `QueryExecutor._execute_step`: the ordered dispatch chain of the source,
branch for branch. -/
def execute_step (step : StepSpec) (user_id : Nat) (ctx : Ctx) (st : Store) (now : Int) :
    Except PyErr (OperationResult × Store) :=
  if step.operation == "update_batch" then
    execute_update_batch step user_id ctx st now
  else if step.operation ∉ ["create", "read", "update", "delete"] then
    Except.error (PyErr.queryValidation ("Unknown operation: " ++ step.operation))
  else if step.operation == "read" then
    read_execute (some step) user_id st now
  else if step.operation == "update" && !step.filters.isEmpty &&
      !step.params.truthyAt "task_id" && !osTruthy step.use_result_from then
    execute_update_with_search step user_id st now
  else if step.operation == "delete" && step.selector == some "by_index" then
    execute_delete_by_index step user_id st
  else if step.operation == "delete" && !step.filters.isEmpty &&
      !step.params.truthyAt "task_id" && !osTruthy step.use_result_from then
    execute_delete_with_search step user_id st now
  else if osTruthy step.use_result_from then
    if !Ctx.has ctx (step.use_result_from.getD "") then
      Except.ok (failResult
        ("No data found from previous step \x27" ++ step.use_result_from.getD "" ++ "\x27"), st)
    else
      let previous_data := (Ctx.get ctx (step.use_result_from.getD "")).getD ResultData.none
      if !previous_data.truthy then
        Except.ok (failResult
          "No tasks found matching your criteria. Please try a different search.", st)
      else if step.operation == "update" then do
        let task_to_update ←
          match previous_data with
          | ResultData.tasks [] =>
            Except.error (PyErr.typeError "unreachable: empty list is falsy")
          | ResultData.tasks (t :: _) => Except.ok t
          | ResultData.task t => Except.ok t
          | _ => Except.error (PyErr.typeError "object has no attribute id")
        match step.modifications with
        | Option.none => Except.error (PyErr.typeError "argument after ** must be a mapping")
        | some mods =>
          let params := Params.update [("task_id", Value.str (toString task_to_update.id))] mods
          update_execute params user_id st now
      else if step.operation == "delete" then do
        let task_to_delete ←
          match previous_data with
          | ResultData.tasks [] =>
            Except.error (PyErr.typeError "unreachable: empty list is falsy")
          | ResultData.tasks (t :: _) => Except.ok t
          | ResultData.task t => Except.ok t
          | _ => Except.error (PyErr.typeError "object has no attribute id")
        delete_execute [("task_id", Value.str (toString task_to_delete.id))] user_id st
      else
        op_dispatch step.operation step.params user_id st now
  else
    op_dispatch step.operation step.params user_id st now

/-- The `for step in specification.steps` loop of
`QueryExecutor._execute_sequential`: run each step, store its data under
`save_result_as` when set, stop after the first failed step. -/
def seq_steps (user_id : Nat) (now : Int) :
    List StepSpec → Ctx → Store → Except PyErr (List OperationResult × Store)
  | [], _, st => Except.ok ([], st)
  | step :: rest, ctx, st => do
    let (res, st') ← execute_step step user_id ctx st now
    let ctx' :=
      if osTruthy step.save_result_as then Ctx.set ctx (step.save_result_as.getD "") res.data
      else ctx
    if res.success then do
      let (more, st'') ← seq_steps user_id now rest ctx' st'
      Except.ok (res :: more, st'')
    else
      Except.ok ([res], st')

/-- `QueryExecutor._execute_sequential`: run the loop, aggregate success as
the conjunction over executed steps, message from the specification's
`natural_response`, data formatted from the last executed step. -/
def execute_sequential (spec : QuerySpecification) (user_id : Nat) (st : Store) (now : Int) :
    Except PyErr (ExecutionResult × Store) := do
  let (results, st') ← seq_steps user_id now spec.steps [] st
  let data :=
    match results.getLast? with
    | some last => format_result_data (some last)
    | Option.none => ResultData.none
  Except.ok ({ success := results.all (fun r => r.success), results := results,
               message := spec.natural_response, data := data }, st')

/-- `QueryExecutor._execute_simple`: run the single step (`steps[0]`). -/
def execute_simple (spec : QuerySpecification) (user_id : Nat) (st : Store) (now : Int) :
    Except PyErr (ExecutionResult × Store) := do
  match spec.steps with
  | [] => Except.error (PyErr.valueError "list index out of range")
  | step :: _ => do
    let (res, st') ← execute_step step user_id [] st now
    Except.ok ({ success := res.success, results := [res],
                 message := spec.natural_response,
                 data := format_result_data (some res) }, st')

/-- `QueryExecutor.execute`: dispatch on complexity; `interactive` runs the
sequential path. -/
def executor_execute (spec : QuerySpecification) (user_id : Nat) (st : Store) (now : Int) :
    Except PyErr (ExecutionResult × Store) :=
  if spec.complexity == "simple" then execute_simple spec user_id st now
  else execute_sequential spec user_id st now

/-! ### Concrete fixtures used by witnesses and counterexamples -/

/-- A step spec with every optional field absent (a plain read). -/
def blankStep : StepSpec :=
  { order := 1, operation := "read", params := [], filters := [],
    limit := Option.none, save_result_as := Option.none,
    use_result_from := Option.none, selector := Option.none,
    index := Option.none, modifications := Option.none }

/-- A small concrete task. -/
def mkTask (i uid : Nat) (ca : Int) : Task :=
  { defaultTask with id := i, user_id := uid, title := "task" ++ toString i,
                     created_at := ca }

/-- Three tasks: ids 1 and 2 owned by user 7, id 3 owned by user 8. -/
def demoStore : Store :=
  { tasks := [mkTask 1 7 10, mkTask 2 7 20, mkTask 3 8 30],
    dbFails := false, next_id := 4 }

/-- A store whose next session call raises. -/
def failingStore : Store := { tasks := [], dbFails := true, next_id := 0 }

/-- The rows `get_all(user_id)` returns at its default limit: the user's
tasks, newest first, capped at 100. -/
def visibleTasks (st : Store) (uid : Nat) : List Task :=
  (sortByCreatedDesc (st.tasks.filter (fun t => t.user_id == uid))).take 100

/-! ### Query-builder lemmas -/

/-- A successful `apply_filter` only conjoins one predicate. -/
theorem apply_filter_ok_shape (q : Query) (f : FilterSpec) (now : Int) (q' : Query)
    (h : apply_filter q f now = Except.ok q') : ∃ p, q' = q.wherePred p := by
  unfold apply_filter at h
  split at h
  · cases h
  · split at h
    · next p _ => exact ⟨p, by injection h with h; exact h.symm⟩
    · cases h

/-- A successful filter loop keeps every predicate already in the query and
never touches the limit. -/
theorem applyFilters_ok (now : Int) :
    ∀ (fs : List FilterSpec) (q q' : Query), applyFilters q now fs = Except.ok q' →
      (∀ p, p ∈ q.preds → p ∈ q'.preds) ∧ q'.limit = q.limit := by
  intro fs
  induction fs with
  | nil =>
    intro q q' h
    injection h with h
    subst h
    exact ⟨fun p hp => hp, rfl⟩
  | cons f fs ih =>
    intro q q' h
    unfold applyFilters at h
    cases hf : apply_filter q f now with
    | error e => rw [hf] at h; cases h
    | ok qm =>
      rw [hf] at h
      obtain ⟨p, hp⟩ := apply_filter_ok_shape q f now qm hf
      obtain ⟨hmem, hlim⟩ := ih qm q' h
      subst hp
      refine ⟨fun r hr => hmem r ?_, hlim⟩
      exact List.mem_append_left _ hr

/-- C1 — `build_query` always emits the user-id equality predicate: for
every step (hence every combination of accepted filters, any ordering, any
limit), a successfully built query contains `Task.user_id == user_id`. -/
theorem c1_build_query_user_scoped (step : StepSpec) (uid : Nat) (now : Int) (q : Query)
    (h : build_query step uid now = Except.ok q) : Pred.userEq uid ∈ q.preds := by
  unfold build_query at h
  cases haf : applyFilters
      { preds := [Pred.userEq uid], orderedByCreatedDesc := false, limit := Option.none }
      now step.filters with
  | error e => rw [haf] at h; cases h
  | ok qf =>
    rw [haf] at h
    obtain ⟨hmem, _⟩ := applyFilters_ok now step.filters _ qf haf
    have hq : Pred.userEq uid ∈ qf.preds := hmem _ (by simp)
    injection h with h
    subst h
    cases step.limit with
    | none => exact hq
    | some n =>
      dsimp only
      split
      · exact hq
      · exact hq

/-- A concrete step with two accepted filters and a limit. -/
def c1step : StepSpec :=
  { blankStep with
      filters := [{ type := "is_completed", value := Value.none },
                  { type := "priority_min", value := Value.int 2 }],
      limit := some 5 }

/-- The query `c1step` builds for user 7. -/
def c1query : Query :=
  { preds := [Pred.userEq 7, Pred.completed, Pred.priorityGe 2],
    orderedByCreatedDesc := true, limit := some 5 }

/-- Witness for C1 at a concrete step with two accepted filters and a
limit. -/
theorem c1_witness :
    build_query c1step 7 0 = Except.ok c1query ∧ Pred.userEq 7 ∈ c1query.preds :=
  ⟨by decide, c1_build_query_user_scoped c1step 7 0 c1query (by decide)⟩

/-- C9 counterexample — a step with `limit` present and equal to `0` builds
a query with NO limit at all (Python `if step.limit:` treats `0` as
absent), not a query limited to 0 results as the claim states. -/
theorem c9_counterexample :
    build_query { blankStep with limit := some 0 } 7 0 =
      Except.ok { preds := [Pred.userEq 7], orderedByCreatedDesc := true,
                  limit := Option.none } := by
  decide

/-- C9 amended — `build_query` applies `step.limit` iff it is present and
non-zero; a present `0` is skipped like an absent limit. -/
theorem c9_amended_limit (step : StepSpec) (uid : Nat) (now : Int) (q : Query)
    (h : build_query step uid now = Except.ok q) :
    q.limit = match step.limit with
              | some n => if n ≠ 0 then some n else Option.none
              | Option.none => Option.none := by
  unfold build_query at h
  cases haf : applyFilters
      { preds := [Pred.userEq uid], orderedByCreatedDesc := false, limit := Option.none }
      now step.filters with
  | error e => rw [haf] at h; cases h
  | ok qf =>
    rw [haf] at h
    obtain ⟨_, hlim⟩ := applyFilters_ok now step.filters _ qf haf
    injection h with h
    subst h
    cases hstep : step.limit with
    | none => simpa using hlim
    | some n =>
      by_cases hn : n = 0
      · subst hn; simpa using hlim
      · simp [bne_iff_ne, ne_eq, hn]

/-- Witness for C9 amended at a concrete nonzero limit. -/
theorem c9_witness :
    build_query { blankStep with limit := some 3 } 9 0 =
      Except.ok { preds := [Pred.userEq 9], orderedByCreatedDesc := true, limit := some 3 } ∧
    ({ preds := [Pred.userEq 9], orderedByCreatedDesc := true, limit := some 3 } : Query).limit
      = some 3 :=
  ⟨by decide,
   c9_amended_limit { blankStep with limit := some 3 } 9 0 _ (by decide)⟩

/-- C7 — `QuerySpecification` construction fails on an empty steps list and
on `simple` with several steps; every accepted value has at least one step,
and exactly one when `simple`. -/
theorem c7_specification_construction (complexity strategy : String)
    (steps : List StepSpec) (nr : String) :
    (steps = [] →
      QuerySpecification.make complexity strategy steps nr =
        Except.error (PyErr.valueError "Query specification must have at least one step")) ∧
    (complexity = "simple" → 1 < steps.length →
      QuerySpecification.make complexity strategy steps nr =
        Except.error (PyErr.valueError "Simple queries should have only one step")) ∧
    (∀ spec, QuerySpecification.make complexity strategy steps nr = Except.ok spec →
      spec.steps ≠ [] ∧ (spec.complexity = "simple" → spec.steps.length = 1)) := by
  refine ⟨?_, ?_, ?_⟩
  · intro hsteps
    subst hsteps
    rfl
  · intro hc hlen
    subst hc
    have h1 : steps.isEmpty = false := by
      cases steps with
      | nil => simp at hlen
      | cons a as => rfl
    simp [QuerySpecification.make, h1, hlen]
  · intro spec h
    unfold QuerySpecification.make at h
    split at h
    · cases h
    · split at h
      · cases h
      · next hne hsim =>
        injection h with h
        subst h
        have hne' : steps ≠ [] := by
          intro hh
          subst hh
          exact hne rfl
        refine ⟨hne', fun hc => ?_⟩
        subst hc
        have hlt : ¬ (1 < steps.length) := by
          intro hlt
          exact hsim (by simp [hlt])
        have hpos : 0 < steps.length := List.length_pos.mpr hne'
        show steps.length = 1
        omega

/-- Witness for C7: the empty-steps and two-step-simple rejections, and an
accepted single-step simple specification. -/
theorem c7_witness :
    QuerySpecification.make "simple" "sequential" [] "hi" =
      Except.error (PyErr.valueError "Query specification must have at least one step") ∧
    QuerySpecification.make "simple" "sequential" [blankStep, blankStep] "hi" =
      Except.error (PyErr.valueError "Simple queries should have only one step") ∧
    ∀ spec, QuerySpecification.make "simple" "sequential" [blankStep] "hi" = Except.ok spec →
      spec.steps ≠ [] :=
  ⟨(c7_specification_construction "simple" "sequential" [] "hi").1 rfl,
   (c7_specification_construction "simple" "sequential" [blankStep, blankStep] "hi").2.1 rfl
     (by decide),
   fun spec h =>
     ((c7_specification_construction "simple" "sequential" [blankStep] "hi").2.2 spec h).1⟩

/-- C10 — a batch update mutates only caller-owned rows among the given
ids: the reported count is exactly the number of the caller's tasks whose
id is listed, the table keeps its length, and every row that is foreign or
unlisted is byte-for-byte unchanged. -/
theorem c10_update_batch_scoped (st : Store) (ids : List Nat) (m : Params) (uid : Nat)
    (now : Int) (hdb : st.dbFails = false) (hm : modsOk m = true) :
    ∃ st', repo_update_batch st ids (some m) uid now =
        Except.ok (((st.tasks.filter
          (fun t => decide (t.id ∈ ids) && t.user_id == uid)).length : Int), st') ∧
      st'.tasks.length = st.tasks.length ∧
      (∀ k (hk : k < st.tasks.length) (hk' : k < st'.tasks.length),
        (st.tasks.get ⟨k, hk⟩).user_id ≠ uid ∨ (st.tasks.get ⟨k, hk⟩).id ∉ ids →
          st'.tasks.get ⟨k, hk'⟩ = st.tasks.get ⟨k, hk⟩) := by
  refine ⟨{ st with tasks := st.tasks.map (fun t =>
    if decide (t.id ∈ ids) && t.user_id == uid then applyMods m t now else t) }, ?_, ?_, ?_⟩
  · simp [repo_update_batch, hdb, hm]
  · simp
  · intro k hk hk' hskip
    simp only [List.get_eq_getElem, List.getElem_map]
    rw [if_neg]
    simp only [Bool.and_eq_true, decide_eq_true_eq, beq_iff_eq, not_and]
    intro hmem
    rcases hskip with hu | hid
    · exact fun hequ => absurd hequ hu
    · exact absurd hmem hid

/-- Witness for C10: ids `[1, 3]` where task 1 belongs to the caller and
task 3 to another user — count is 1 and the foreign row is untouched. -/
theorem c10_witness :
    ∃ st', repo_update_batch demoStore [1, 3] [("status", Value.str "completed")] 7 99 =
        Except.ok (((demoStore.tasks.filter
          (fun t => decide (t.id ∈ ([1, 3] : List Nat)) && t.user_id == 7)).length : Int), st') ∧
      st'.tasks.length = demoStore.tasks.length ∧
      (∀ k (hk : k < demoStore.tasks.length) (hk' : k < st'.tasks.length),
        (demoStore.tasks.get ⟨k, hk⟩).user_id ≠ 7 ∨
          (demoStore.tasks.get ⟨k, hk⟩).id ∉ ([1, 3] : List Nat) →
          st'.tasks.get ⟨k, hk'⟩ = demoStore.tasks.get ⟨k, hk⟩) :=
  c10_update_batch_scoped demoStore [1, 3] [("status", Value.str "completed")] 7 99
    rfl (by decide)

/-! ### Executor-level theorems -/

/-- C8 counterexample — `StepSpec` construction performs no validation: an
`update_batch` step with no `use_result_from` (and no index/selector) is
accepted by the constructor yet violates the claimed data-model invariant. -/
theorem c8_counterexample :
    ¬ StepSpec.invariantHolds { blankStep with operation := "update_batch" } := by
  decide

/-- C8 amended — the invariant is not enforced at construction; the
`update_batch` half is enforced only at execution time: an `update_batch`
step without `use_result_from` executes to a failed result ("No tasks found
in context for batch update") with the store untouched. -/
theorem c8_amended_runtime (step : StepSpec) (uid : Nat) (ctx : Ctx) (st : Store)
    (now : Int) (hop : step.operation = "update_batch")
    (husr : step.use_result_from = Option.none) :
    execute_step step uid ctx st now =
      Except.ok (failResult "No tasks found in context for batch update", st) := by
  unfold execute_step
  rw [hop]
  simp [execute_update_batch, husr, osTruthy]

/-- Witness for C8 amended at a concrete step. -/
theorem c8_witness :
    execute_step { blankStep with operation := "update_batch" } 7 [] demoStore 0 =
      Except.ok (failResult "No tasks found in context for batch update", demoStore) :=
  c8_amended_runtime { blankStep with operation := "update_batch" } 7 [] demoStore 0
    rfl rfl

/-- The failing first step of the C2 scenario: an `update_batch` reading a
context entry that no earlier step wrote. -/
def c2stepA : StepSpec :=
  { blankStep with order := 1, operation := "update_batch",
                   use_result_from := some "x",
                   modifications := some [("status", Value.str "completed")] }

/-- The second step of the C2 scenario, which must never run. -/
def c2stepB : StepSpec := { blankStep with order := 2 }

/-- The C2 two-step sequential specification. -/
def c2spec : QuerySpecification :=
  { complexity := "multi_step", strategy := "sequential",
    steps := [c2stepA, c2stepB], natural_response := "OK" }

/-- C2 counterexample — with steps `[A, B]` where A fails, the aggregate
message is the specification's `natural_response` ("OK"), NOT A's message
("No tasks found in context for batch update") as the claim states; B never
runs and aggregate success is false, as witnessed by the single-entry
results list. -/
theorem c2_counterexample :
    execute_sequential c2spec 7 demoStore 0 =
      Except.ok ({ success := false,
                   results := [failResult "No tasks found in context for batch update"],
                   message := "OK", data := ResultData.none }, demoStore) ∧
    "OK" ≠ "No tasks found in context for batch update" :=
  ⟨by decide, by decide⟩

/-- C2 amended — for steps `[A, B]` where A fails: B never executes (the
results list is exactly `[A's result]` and the store is A's post-state),
aggregate success is false, and the aggregate message is the
specification's `natural_response` (not A's message). -/
theorem c2_amended_failfast (spec : QuerySpecification) (uid : Nat) (st stA : Store)
    (now : Int) (A B : StepSpec) (rA : OperationResult)
    (hsteps : spec.steps = [A, B])
    (hA : execute_step A uid [] st now = Except.ok (rA, stA))
    (hfail : rA.success = false) :
    execute_sequential spec uid st now =
      Except.ok ({ success := false, results := [rA],
                   message := spec.natural_response,
                   data := format_result_data (some rA) }, stA) := by
  unfold execute_sequential
  rw [hsteps]
  unfold seq_steps
  rw [hA]
  simp only [bind, Except.bind, hfail, Bool.false_eq_true, if_false]
  simp [hfail]

/-- Witness for C2 amended at the concrete scenario of the counterexample
input (A = batch update on a never-written context entry). -/
theorem c2_witness :
    execute_sequential c2spec 7 demoStore 0 =
      Except.ok ({ success := false,
                   results := [failResult "No tasks found in context for batch update"],
                   message := c2spec.natural_response,
                   data := format_result_data
                     (some (failResult "No tasks found in context for batch update")) },
                 demoStore) :=
  c2_amended_failfast c2spec 7 demoStore demoStore 0 c2stepA c2stepB
    (failResult "No tasks found in context for batch update") rfl (by decide) rfl

/-- The C3 counterexample step: an `update_batch` whose context entry holds
an empty list. -/
def c3step : StepSpec :=
  { blankStep with operation := "update_batch", use_result_from := some "t",
                   modifications := some [("status", Value.str "completed")] }

/-- C3 counterexample — a step whose `use_result_from` entry holds an empty
value does NOT always fail: an `update_batch` step over an empty stored
list succeeds with `updated_count = 0` (the claim demands a failed result
for every such step). -/
theorem c3_counterexample :
    execute_step c3step 7 [("t", ResultData.tasks [])] demoStore 0 =
      Except.ok ({ success := true, data := ResultData.updatedCount 0,
                   message := "Updated 0 tasks" }, demoStore) := by
  decide

/-- C3 amended — for create, update and delete steps (excluding the
delete-by-index path, which ignores the context): a `use_result_from`
naming a missing context entry yields the "No data found from previous
step" failure, and an entry holding a falsy value yields the "No tasks
found matching your criteria" failure; either way the store is unchanged
and, by the fail-fast loop, the chain halts. (`update_batch` differs: a
missing entry fails but an empty stored list succeeds with count 0.) -/
theorem c3_amended_no_data (step : StepSpec) (uid : Nat) (ctx : Ctx) (st : Store)
    (now : Int) (name : String)
    (hop : step.operation = "create" ∨ step.operation = "update" ∨
      step.operation = "delete")
    (hbyidx : ¬ (step.operation = "delete" ∧ step.selector = some "by_index"))
    (husr : step.use_result_from = some name) (hname : name ≠ "")
    (hmiss : Ctx.has ctx name = false ∨
      ((Ctx.get ctx name).getD ResultData.none).truthy = false) :
    execute_step step uid ctx st now =
      Except.ok (failResult
        (if Ctx.has ctx name then
          "No tasks found matching your criteria. Please try a different search."
         else "No data found from previous step \x27" ++ name ++ "\x27"), st) := by
  have hu : osTruthy step.use_result_from = true := by
    rw [husr]
    simp [osTruthy, bne_iff_ne, hname]
  have hgetd : step.use_result_from.getD "" = name := by rw [husr]; rfl
  cases hhas : Ctx.has ctx name with
  | false =>
    rcases hop with hop | hop | hop
    · simp [execute_step, hop, hu, hgetd, hhas]
    · simp [execute_step, hop, hu, hgetd, hhas]
    · have h5 : (step.selector == some "by_index") = false := by
        have : step.selector ≠ some "by_index" := fun hs => hbyidx ⟨hop, hs⟩
        exact beq_eq_false_iff_ne.mpr this
      simp [execute_step, hop, hu, hgetd, hhas, h5]
  | true =>
    have htr : ((Ctx.get ctx name).getD ResultData.none).truthy = false := by
      rcases hmiss with hmiss | hmiss
      · rw [hmiss] at hhas; cases hhas
      · exact hmiss
    rcases hop with hop | hop | hop
    · simp [execute_step, hop, hu, hgetd, hhas, htr]
    · simp [execute_step, hop, hu, hgetd, hhas, htr]
    · have h5 : (step.selector == some "by_index") = false := by
        have : step.selector ≠ some "by_index" := fun hs => hbyidx ⟨hop, hs⟩
        exact beq_eq_false_iff_ne.mpr this
      simp [execute_step, hop, hu, hgetd, hhas, htr, h5]

/-- Witness for C3 amended: an update step reading a never-written context
entry fails with the "No data found" message and an unchanged store. -/
theorem c3_witness :
    execute_step { blankStep with operation := "update", use_result_from := some "y" }
        7 [] demoStore 0 =
      Except.ok (failResult
        (if Ctx.has ([] : Ctx) "y" then
          "No tasks found matching your criteria. Please try a different search."
         else "No data found from previous step \x27y\x27"), demoStore) :=
  c3_amended_no_data { blankStep with operation := "update", use_result_from := some "y" }
    7 [] demoStore 0 "y" (Or.inr (Or.inl rfl)) (by simp) rfl (by decide) (Or.inl rfl)

/-- Insertion keeps exactly the inserted element plus the old ones. -/
theorem mem_insertByCreatedDesc (t a : Task) (l : List Task) :
    a ∈ insertByCreatedDesc t l ↔ a = t ∨ a ∈ l := by
  induction l with
  | nil => simp [insertByCreatedDesc]
  | cons u us ih =>
    unfold insertByCreatedDesc
    split
    · simp only [List.mem_cons, ih]
      tauto
    · simp only [List.mem_cons]

/-- Sorting by creation time is membership-preserving. -/
theorem mem_sortByCreatedDesc (a : Task) (l : List Task) :
    a ∈ sortByCreatedDesc l ↔ a ∈ l := by
  induction l with
  | nil => simp [sortByCreatedDesc]
  | cons t ts ih =>
    unfold sortByCreatedDesc
    rw [mem_insertByCreatedDesc]
    simp [ih]

/-- `get_all` at its default limit returns exactly `visibleTasks`. -/
theorem repo_get_all_default (st : Store) (uid : Nat) (hdb : st.dbFails = false) :
    repo_get_all st uid 100 = Except.ok (visibleTasks st uid) := by
  simp [repo_get_all, visibleTasks, hdb]

/-- Every visible task is a store row owned by the user. -/
theorem visibleTasks_mem (st : Store) (uid : Nat) (t : Task)
    (h : t ∈ visibleTasks st uid) : t ∈ st.tasks ∧ t.user_id = uid := by
  unfold visibleTasks at h
  have h1 := List.mem_of_mem_take h
  rw [mem_sortByCreatedDesc] at h1
  rw [List.mem_filter] at h1
  exact ⟨h1.1, by simpa using h1.2⟩

/-- C4 counterexample store: user 7 owns 101 tasks (ids 0..100), newest
first in creation order. -/
def c4bigStore : Store :=
  { tasks := (List.range 101).map (fun k => mkTask k 7 (100 - (k : Int))),
    dbFails := false, next_id := 101 }

/-- The C4 delete-by-index step at 1-based index 101. -/
def c4step : StepSpec :=
  { blankStep with operation := "delete", selector := some "by_index",
                   index := some 101 }

/-- C4 counterexample — the bounds check runs against `get_all`'s
default-limited list (at most 100 rows), not the user's full task list: a
user owning 101 tasks gets "Task index 101 out of range" for the perfectly
in-range index 101, and nothing is deleted. -/
theorem c4_counterexample :
    (c4bigStore.tasks.filter (fun t => t.user_id == 7)).length = 101 ∧
    execute_step c4step 7 [] c4bigStore 0 =
      Except.ok (failResult "Task index 101 out of range", c4bigStore) := by
  constructor
  · decide
  · decide

/-- C4 amended — delete-by-index converts the 1-based index to 0-based and
bounds-checks it against the user's default-ordered task list as truncated
to the repository's default limit of 100 (`visibleTasks`): index 0 (or any
index beyond that truncated list) is an explicit out-of-range failure with
no deletion, and an in-range index deletes exactly the entity at that
position. -/
theorem c4_amended_delete_by_index (step : StepSpec) (uid : Nat) (ctx : Ctx) (st : Store)
    (now : Int) (i : Int)
    (hop : step.operation = "delete") (hsel : step.selector = some "by_index")
    (hidx : step.index = some i) (hdb : st.dbFails = false) :
    (i < 1 ∨ ((visibleTasks st uid).length : Int) < i →
      execute_step step uid ctx st now =
        Except.ok (failResult ("Task index " ++ toString i ++ " out of range"), st)) ∧
    (1 ≤ i → i ≤ ((visibleTasks st uid).length : Int) →
      execute_step step uid ctx st now =
        Except.ok ({ success := true,
                     data := ResultData.deleted
                       (toString ((visibleTasks st uid).getD (i - 1).toNat defaultTask).id),
                     message := "Deleted task \x27" ++
                       ((visibleTasks st uid).getD (i - 1).toNat defaultTask).title ++ "\x27" },
          { st with tasks := st.tasks.filter
                      (fun t =>
                        t.id != ((visibleTasks st uid).getD (i - 1).toNat defaultTask).id) })) := by
  have hdisp : execute_step step uid ctx st now = execute_delete_by_index step uid st := by
    simp [execute_step, hop, hsel]
  rw [hdisp]
  unfold execute_delete_by_index
  rw [repo_get_all_default st uid hdb]
  simp only [bind, Except.bind, hidx]
  constructor
  · intro hout
    rw [if_pos (by omega)]
  · intro h1 h2
    rw [if_neg (by omega)]
    have hlt : (i - 1).toNat < (visibleTasks st uid).length := by omega
    set task := (visibleTasks st uid).getD (i - 1).toNat defaultTask with htask
    have htmem : task ∈ visibleTasks st uid := by
      rw [htask, List.getD_eq_getElem _ defaultTask hlt]
      exact List.getElem_mem hlt
    obtain ⟨hstore, huser⟩ := visibleTasks_mem st uid task htmem
    have hfind : (st.tasks.find? (fun t => t.id == task.id && t.user_id == uid)).isSome := by
      rw [List.find?_isSome]
      exact ⟨task, hstore, by simp [huser]⟩
    rw [Option.isSome_iff_exists] at hfind
    obtain ⟨u, hu⟩ := hfind
    unfold repo_delete
    rw [hdb]
    simp only [Bool.false_eq_true, if_false, hu]

/-- Witness for C4 amended: in `demoStore`, user 7's newest-first list is
`[task2, task1]`; index 1 deletes task 2, and index 3 is out of range. -/
theorem c4_witness :
    execute_step { c4step with index := some 3 } 7 [] demoStore 0 =
      Except.ok (failResult "Task index 3 out of range", demoStore) ∧
    execute_step { c4step with index := some 1 } 7 [] demoStore 0 =
      Except.ok ({ success := true, data := ResultData.deleted "2",
                   message := "Deleted task \x27task2\x27" },
                 { demoStore with
                     tasks := demoStore.tasks.filter (fun t => t.id != 2) }) := by
  constructor
  · exact (c4_amended_delete_by_index { c4step with index := some 3 } 7 [] demoStore 0 3
      rfl rfl rfl rfl).1 (by decide)
  · have h := (c4_amended_delete_by_index { c4step with index := some 1 } 7 [] demoStore 0 1
      rfl rfl rfl rfl).2 (by decide) (by decide)
    rw [h]
    decide

/-- The C5 counterexample step: an `update_batch` with `modifications`
absent. -/
def c5step : StepSpec :=
  { blankStep with operation := "update_batch", use_result_from := some "t",
                   modifications := Option.none }

/-- C5 counterexample — an `update_batch` step over an empty stored list
does not always succeed with count 0: with `modifications` absent the
repository call raises (`values(**None)` is a `TypeError`, wrapped into
`DatabaseException`), which propagates out of the step instead of the
claimed `success=true` result. -/
theorem c5_counterexample :
    execute_step c5step 7 [("t", ResultData.tasks [])] demoStore 0 =
      Except.error (PyErr.database "Failed to batch update tasks") := by
  decide

/-- C5 amended — an `update_batch` step whose context entry holds an empty
list and whose `modifications` dict is present and statement-valid returns
`success=true` with `updated_count = 0` and leaves the store unchanged. -/
theorem c5_amended_empty_batch (step : StepSpec) (uid : Nat) (ctx : Ctx) (st : Store)
    (now : Int) (name : String) (m : Params)
    (hop : step.operation = "update_batch") (husr : step.use_result_from = some name)
    (hname : name ≠ "") (hctx : Ctx.get ctx name = some (ResultData.tasks []))
    (hdb : st.dbFails = false) (hmods : step.modifications = some m)
    (hm : modsOk m = true) :
    execute_step step uid ctx st now =
      Except.ok ({ success := true, data := ResultData.updatedCount 0,
                   message := "Updated 0 tasks" }, st) := by
  have hhas : Ctx.has ctx name = true := by
    unfold Ctx.has
    unfold Ctx.get at hctx
    cases hfind : List.find? (fun kv => kv.1 == name) ctx with
    | none => rw [hfind] at hctx; cases hctx
    | some kv => simp
  have hosT : osTruthy (some name) = true := by
    simp [osTruthy, bne_iff_ne, hname]
  unfold execute_step
  rw [hop, if_pos (show (("update_batch" : String) == "update_batch") = true from rfl)]
  unfold execute_update_batch
  rw [husr]
  simp only [Option.getD_some]
  rw [if_neg (by rw [hosT, hhas]; simp)]
  rw [hctx]
  simp only [List.map_nil, hmods, bind, Except.bind]
  unfold repo_update_batch
  rw [hdb]
  simp only [Bool.false_eq_true, if_false, hm, Bool.not_true]
  simp [List.filter_eq_nil_iff]
  exact ⟨by decide, by rw [← hdb]⟩

/-- Witness for C5 amended: the concrete empty-batch success. -/
theorem c5_witness :
    execute_step c3step 7 [("t", ResultData.tasks [])] demoStore 0 =
      Except.ok ({ success := true, data := ResultData.updatedCount 0,
                   message := "Updated 0 tasks" }, demoStore) :=
  c5_amended_empty_batch c3step 7 [("t", ResultData.tasks [])] demoStore 0 "t"
    [("status", Value.str "completed")] rfl rfl (by decide) rfl rfl rfl (by decide)

/-- Under a failing session, `create_inner` cannot succeed. -/
theorem create_inner_db_err (params : Params) (uid : Nat) (st : Store) (now : Int)
    (hdb : st.dbFails = true) : ∀ x, create_inner params uid st now ≠ Except.ok x := by
  intro x h
  unfold create_inner at h
  cases hv : create_validate params with
  | error e => rw [hv] at h; simp [bind, Except.bind] at h
  | ok u =>
    rw [hv] at h
    cases hf : TaskCreate.fromParams params with
    | error e => rw [hf] at h; simp [bind, Except.bind] at h
    | ok d =>
      rw [hf] at h
      simp only [bind, Except.bind] at h
      unfold repo_create at h
      rw [hdb] at h
      simp at h

/-- Under a failing session, `update_inner` cannot succeed. -/
theorem update_inner_db_err (params : Params) (uid : Nat) (st : Store) (now : Int)
    (hdb : st.dbFails = true) : ∀ x, update_inner params uid st now ≠ Except.ok x := by
  intro x h
  unfold update_inner at h
  split at h
  · simp [bind, Except.bind] at h
  · cases hp : parseTaskId (params.get "task_id") with
    | error e => rw [hp] at h; simp [bind, Except.bind] at h
    | ok tid =>
      rw [hp] at h
      cases hf : TaskUpdate.fromParams (params.filter (fun kv => kv.1 != "task_id")) with
      | error e => rw [hf] at h; simp [bind, Except.bind] at h
      | ok u =>
        rw [hf] at h
        simp only [bind, Except.bind] at h
        unfold repo_update at h
        rw [hdb] at h
        simp at h

/-- Under a failing session, `delete_inner` cannot succeed. -/
theorem delete_inner_db_err (params : Params) (uid : Nat) (st : Store)
    (hdb : st.dbFails = true) : ∀ x, delete_inner params uid st ≠ Except.ok x := by
  intro x h
  unfold delete_inner at h
  split at h
  · simp [bind, Except.bind] at h
  · cases hp : parseTaskId (params.get "task_id") with
    | error e => rw [hp] at h; simp [bind, Except.bind] at h
    | ok tid =>
      rw [hp] at h
      simp only [bind, Except.bind] at h
      unfold repo_delete at h
      rw [hdb] at h
      simp at h

/-- Under a failing session, `read_inner` cannot succeed. -/
theorem read_inner_db_err (sspec : Option StepSpec) (uid : Nat) (st : Store) (now : Int)
    (hdb : st.dbFails = true) : ∀ x, read_inner sspec uid st now ≠ Except.ok x := by
  intro x h
  unfold read_inner at h
  cases sspec with
  | none =>
    unfold repo_get_all at h
    rw [hdb] at h
    simp at h
  | some sp =>
    dsimp only at h
    cases hq : build_query sp uid now with
    | error e => rw [hq] at h; simp [bind, Except.bind] at h
    | ok q =>
      rw [hq] at h
      simp only [bind, Except.bind] at h
      unfold repo_execute_query at h
      rw [hdb] at h
      simp at h

/-- C6 counterexample — a storage failure does NOT propagate out of
`execute` as an exception: with the session raising, `CreateOperation.execute`
returns normally with a failed `OperationResult` carrying the
`DatabaseException` text (the claim demands `Except.error`). -/
theorem c6_counterexample :
    create_execute [("title", Value.str "hi")] 7 failingStore 0 =
      Except.ok (failResult "Failed to create task", failingStore) := by
  decide

/-- C6 amended — every operation strategy's `execute` never raises at all:
business-logic failures AND storage failures are both reported in-band as
`OperationResult` with `success=false` (the `except Exception` clause in
each strategy also catches `DatabaseException`); in particular under a
failing store every strategy returns a failed result and an unchanged
store. -/
theorem c6_amended_no_raise (params : Params) (sspec : Option StepSpec) (uid : Nat)
    (st : Store) (now : Int) :
    (∃ r, create_execute params uid st now = Except.ok r) ∧
    (∃ r, update_execute params uid st now = Except.ok r) ∧
    (∃ r, delete_execute params uid st = Except.ok r) ∧
    (∃ r, read_execute sspec uid st now = Except.ok r) ∧
    (st.dbFails = true →
      (∀ r st', create_execute params uid st now = Except.ok (r, st') →
        r.success = false ∧ st' = st) ∧
      (∀ r st', update_execute params uid st now = Except.ok (r, st') →
        r.success = false ∧ st' = st) ∧
      (∀ r st', delete_execute params uid st = Except.ok (r, st') →
        r.success = false ∧ st' = st) ∧
      (∀ r st', read_execute sspec uid st now = Except.ok (r, st') →
        r.success = false ∧ st' = st)) := by
  refine ⟨?_, ?_, ?_, ?_, ?_⟩
  · unfold create_execute
    cases h : create_inner params uid st now with
    | ok x => obtain ⟨t, st'⟩ := x; exact ⟨_, rfl⟩
    | error e => exact ⟨_, rfl⟩
  · unfold update_execute
    cases h : update_inner params uid st now with
    | ok x => obtain ⟨t, st'⟩ := x; exact ⟨_, rfl⟩
    | error e => exact ⟨_, rfl⟩
  · unfold delete_execute
    cases h : delete_inner params uid st with
    | ok x => obtain ⟨tid, st'⟩ := x; exact ⟨_, rfl⟩
    | error e => exact ⟨_, rfl⟩
  · unfold read_execute
    cases h : read_inner sspec uid st now with
    | ok ts => exact ⟨_, rfl⟩
    | error e => exact ⟨_, rfl⟩
  · intro hdb
    refine ⟨?_, ?_, ?_, ?_⟩
    · intro r st' h
      unfold create_execute at h
      cases hi : create_inner params uid st now with
      | ok x => exact absurd hi (create_inner_db_err params uid st now hdb x)
      | error e =>
        rw [hi] at h
        injection h with h
        obtain ⟨h1, h2⟩ := Prod.mk.injEq .. ▸ h
        exact ⟨by rw [← h1]; rfl, by rw [← h2]⟩
    · intro r st' h
      unfold update_execute at h
      cases hi : update_inner params uid st now with
      | ok x => exact absurd hi (update_inner_db_err params uid st now hdb x)
      | error e =>
        rw [hi] at h
        injection h with h
        obtain ⟨h1, h2⟩ := Prod.mk.injEq .. ▸ h
        exact ⟨by rw [← h1]; rfl, by rw [← h2]⟩
    · intro r st' h
      unfold delete_execute at h
      cases hi : delete_inner params uid st with
      | ok x => exact absurd hi (delete_inner_db_err params uid st hdb x)
      | error e =>
        rw [hi] at h
        injection h with h
        obtain ⟨h1, h2⟩ := Prod.mk.injEq .. ▸ h
        exact ⟨by rw [← h1]; rfl, by rw [← h2]⟩
    · intro r st' h
      unfold read_execute at h
      cases hi : read_inner sspec uid st now with
      | ok ts => exact absurd hi (read_inner_db_err sspec uid st now hdb ts)
      | error e =>
        rw [hi] at h
        injection h with h
        obtain ⟨h1, h2⟩ := Prod.mk.injEq .. ▸ h
        exact ⟨by rw [← h1]; rfl, by rw [← h2]⟩

/-- Witness for C6 amended: under the failing store, create returns
normally and the failure is reported in-band. -/
theorem c6_witness :
    (∃ r, create_execute [("title", Value.str "hi")] 7 failingStore 0 = Except.ok r) ∧
    (failResult "Failed to create task").success = false ∧ failingStore = failingStore := by
  have h := c6_amended_no_raise [("title", Value.str "hi")] Option.none 7 failingStore 0
  exact ⟨h.1, (h.2.2.2.2 rfl).1 (failResult "Failed to create task") failingStore (by decide)⟩

end VTodo
